import Mathlib

/-!
Shallow embedding of `src/plugins/vis_type_tagcloud/public/components/tag_cloud.tsx`
(the `TagCloud` class and its helper functions).

Modelling conventions:
* JS numbers that only carry integer values in the source (viewport sizes, status
  codes, hash values, rotations) are `Int`; measured geometry (bounding boxes,
  font sizes, placements) is `ℚ`.
* The class instance is a `TagCloudState` record; each method is a state-passing
  function.  DOM reads (`element.offsetWidth`, `getBBox()`) are inputs to the
  functions that perform them.
* The code is single-threaded JS.  An `async` method runs synchronously up to its
  first `await`.  `processPendingJobStart` models the synchronous prefix of
  `_processPendingJob` (the part up to the `await this._pickPendingJob()`, whose
  promise arms the zero-delay timer synchronously).  `fireTimer` models the timer
  callback plus the rest of `_processPendingJob`, executed with no external calls
  interleaved (which is the schedule all the properties below are about).
* Ghost instrumentation fields (`layoutRuns`, `renderCompleteEmits`,
  `invalidateCount`, `domUpdates`) record which external effects happened; no
  source-mirrored field ever reads them.
* External libraries (`d3`, `d3-cloud`) are modelled at their interface where a
  property depends on them; each such definition carries a doc comment saying so.
-/

namespace TagCloudModel

/-- Orientation option (`TagCloudVisParams.orientation`): the keys of the
source's `ORIENTATIONS` map. -/
inductive Orientation
  | single
  | rightAngled
  | multiple
deriving DecidableEq, Repr

/-- Scale option (`TagCloudVisParams.scale`): the keys of the source's
`D3_SCALING_FUNCTIONS` map. -/
inductive ScaleKind
  | linear
  | log
  | squareRoot
deriving DecidableEq, Repr

/-- A word record (`TagType`).  All fields are `Option`-valued because the JS
objects flowing through the code do not always carry every key (for example
`_makeJobPreservingLayout` builds objects without `text` or `value`). -/
structure Tag where
  rawText : Option String := none
  text : Option String := none
  displayText : Option String := none
  value : Option ℚ := none
  x : Option ℚ := none
  y : Option ℚ := none
  rotate : Option ℚ := none
  size : Option ℚ := none
  meta : Option String := none
deriving DecidableEq, Repr

/-- A scheduled unit of work (`JobType`): word list, viewport size and the
refresh flag. -/
structure JobType where
  refreshLayout : Bool
  size : Int × Int
  words : List Tag
deriving DecidableEq, Repr

/-- The payload accepted by `setOptions`.  The source serializes it with
`JSON.stringify` for the structural no-op comparison; for this fixed record
shape that serialization is injective, so the stored string is modelled as the
record itself. -/
structure OptionsRec where
  orientation : Orientation
  minFontSize : ℚ
  maxFontSize : ℚ
  scale : ScaleKind
deriving DecidableEq, Repr

/-- The `STATUS` container of the class (`{ COMPLETE, INCOMPLETE }`). -/
structure Status where
  COMPLETE : Int
  INCOMPLETE : Int
deriving DecidableEq, Repr

/-- The class-field initializer `STATUS = { COMPLETE: 0, INCOMPLETE: 1 }`
(line 80), which runs before the constructor body. -/
def statusFieldInit : Status := { COMPLETE := 0, INCOMPLETE := 1 }

/-- A DOM bounding box, as returned by `getBBox()`. -/
structure Rect where
  x : ℚ
  y : ℚ
  width : ℚ
  height : ℚ
deriving DecidableEq, Repr

/-- The mutable state of a `TagCloud` instance.  The last four fields are ghost
instrumentation recording externally observable effects. -/
structure TagCloudState where
  size : Int × Int
  orientation : Orientation
  minFontSize : ℚ
  maxFontSize : ℚ
  textScale : ScaleKind
  optionsAsString : Option OptionsRec
  words : Option (List Tag)
  setTimeoutId : Bool
  pendingJob : Option JobType
  layoutIsUpdating : Bool
  DOMisUpdating : Bool
  allInViewBox : Bool
  cloudWidth : ℚ
  cloudHeight : ℚ
  completedJob : Option JobType
  status : Status
  layoutRuns : List JobType := []
  renderCompleteEmits : Nat := 0
  invalidateCount : Nat := 0
  domUpdates : Nat := 0
deriving DecidableEq, Repr

/-- `_isJobRunning()`: busy when the deferred-start timer is armed, the layout
algorithm is running, or the DOM is being reconciled. -/
def isJobRunning (s : TagCloudState) : Bool :=
  s.setTimeoutId || s.layoutIsUpdating || s.DOMisUpdating

/-- `_makeNewJob()`: a full-relayout job over the current words and size. -/
def makeNewJob (s : TagCloudState) : JobType :=
  { refreshLayout := true
    size := s.size
    words := s.words.getD [] }

/-- JS `a || b` on possibly-missing strings: falls through on `undefined` and
on the empty string (both falsy). -/
def jsOrString (a b : Option String) : Option String :=
  match a with
  | some str => if str = "" then b else some str
  | none => b

/-- The per-word mapping inside `_makeJobPreservingLayout`: keeps `x`, `y`,
`rotate`, `size`, `displayText`, `meta`, sets `rawText := tag.rawText || tag.text`,
and carries no `text` or `value` key. -/
def preserveTag (tag : Tag) : Tag :=
  { x := tag.x
    y := tag.y
    rotate := tag.rotate
    size := tag.size
    rawText := jsOrString tag.rawText tag.text
    displayText := tag.displayText
    meta := tag.meta
    text := none
    value := none }

/-- `_makeJobPreservingLayout()`: `none` (JS `undefined`) when there is no
completed job, else a `refreshLayout = false` job over the completed job's
words with placements preserved. -/
def makeJobPreservingLayout (s : TagCloudState) : Option JobType :=
  s.completedJob.map fun cj =>
    { refreshLayout := false
      size := s.size
      words := cj.words.map preserveTag }

/-- The synchronous prefix of `_processPendingJob()`: the two early returns,
then `this._completedJob = null` and the arming of the zero-delay timer inside
`_pickPendingJob` (the `setTimeout` call runs synchronously inside the promise
executor; the method then suspends awaiting the timer). -/
def processPendingJobStart (s : TagCloudState) : TagCloudState :=
  if s.pendingJob.isSome && !(isJobRunning s) then
    { s with completedJob := none, setTimeoutId := true }
  else s

/-- `_invalidate(keepLayout)`: no-op when no words are set; otherwise replaces
the pending slot (reusing the completed layout only when allowed) and kicks the
scheduler.  `_updateContainerSize` only touches DOM attributes and has no
modelled state. -/
def invalidate (keepLayout : Bool) (s : TagCloudState) : TagCloudState :=
  if s.words.isNone then s
  else
    processPendingJobStart
      { s with
        pendingJob :=
          if keepLayout && !(isJobRunning s) && s.completedJob.isSome
          then makeJobPreservingLayout s
          else some (makeNewJob s)
        invalidateCount := s.invalidateCount + 1 }

/-- `setData(data)`: store the word list and invalidate. -/
def setData (s : TagCloudState) (data : List Tag) : TagCloudState :=
  invalidate false { s with words := some data }

/-- `setOptions(options)`: structural no-op check against the stored serialized
options, else store the normalized option fields and invalidate. -/
def setOptions (s : TagCloudState) (options : OptionsRec) : TagCloudState :=
  if s.optionsAsString = some options then s
  else
    invalidate false
      { s with
        optionsAsString := some options
        orientation := options.orientation
        minFontSize := min options.minFontSize options.maxFontSize
        maxFontSize := max options.minFontSize options.maxFontSize
        textScale := options.scale }

/-- The cloud-fits-viewport test used twice by `resize()`:
`width >= this._cloudWidth && height >= this._cloudHeight`. -/
def cloudFitsB (s : TagCloudState) (w h : Int) : Bool :=
  decide (s.cloudWidth ≤ (w : ℚ) ∧ s.cloudHeight ≤ (h : ℚ))

/-- `resize()`: the new element dimensions are inputs (the source reads
`offsetWidth` / `offsetHeight`).  Early-returns when unchanged, else keeps the
layout only when the cloud fit the old and the new viewport and the last
containment measurement succeeded. -/
def resize (s : TagCloudState) (newWidth newHeight : Int) : TagCloudState :=
  if newWidth = s.size.1 ∧ newHeight = s.size.2 then s
  else
    invalidate
      (cloudFitsB s s.size.1 s.size.2 && cloudFitsB s newWidth newHeight && s.allInViewBox)
      { s with size := (newWidth, newHeight) }

/-- `getStatus()`. -/
def getStatus (s : TagCloudState) : Int :=
  if s.allInViewBox then s.status.COMPLETE else s.status.INCOMPLETE

/-- `_emptyDOM()`: clear the scene, record a zero-size cloud, declare it
contained. -/
def emptyDOM (s : TagCloudState) : TagCloudState :=
  { s with
    cloudWidth := 0
    cloudHeight := 0
    allInViewBox := true
    DOMisUpdating := false }

/-- `_updateLayout(job)`: refuse a non-positive viewport (the d3-cloud spiral
would never terminate); otherwise run the external d3-cloud generator.  The
generator itself is external library code: its state effect here is the
`layoutIsUpdating` window (true while running, false again when its `end` event
fires, which is where this atomic step ends) and the ghost record of the run. -/
def updateLayout (s : TagCloudState) (job : JobType) : TagCloudState :=
  if job.size.1 ≤ 0 ∨ job.size.2 ≤ 0 then s
  else
    { s with
      layoutIsUpdating := false
      layoutRuns := s.layoutRuns ++ [job] }

/-- `_updateDOM(job)`: skipped when a newer job or an armed timer has made this
render obsolete; otherwise performs the d3 enter/update/exit pass and resolves
once the transition counters reach zero (where this atomic step ends, with
`DOMisUpdating` back to false). -/
def updateDOM (s : TagCloudState) : TagCloudState :=
  if s.pendingJob.isSome || s.setTimeoutId then { s with DOMisUpdating := false }
  else { s with DOMisUpdating := false, domUpdates := s.domUpdates + 1 }

/-- The containment measurement after `_updateDOM` in `_processPendingJob`:
`bbox.x >= 0 && bbox.y >= 0 && bbox.x + bbox.width <= offsetWidth && bbox.y +
bbox.height <= offsetHeight`. -/
def measureContainment (bbox : Rect) (elemWidth elemHeight : Int) : Bool :=
  decide (0 ≤ bbox.x ∧ 0 ≤ bbox.y ∧
    bbox.x + bbox.width ≤ (elemWidth : ℚ) ∧ bbox.y + bbox.height ≤ (elemHeight : ℚ))

/-- The zero-delay timer callback of `_pickPendingJob` plus the remainder of
`_processPendingJob`, run with no external calls interleaved: pick and clear
the pending job, disarm the timer, run layout (when `refreshLayout`) and the
DOM pass and measure containment — or take the `_emptyDOM` fast path — then
either re-arm for a job submitted meanwhile or store the completed job and emit
`renderComplete`.  `bbox` is what `getBBox()` returns after the DOM pass;
`elemWidth`/`elemHeight` are the element dimensions read at measurement time. -/
def fireTimer (s : TagCloudState) (bbox : Rect) (elemWidth elemHeight : Int) : TagCloudState :=
  if !s.setTimeoutId then s
  else
    match s.pendingJob with
    | none => { s with setTimeoutId := false }
    | some job =>
      let s1 : TagCloudState := { s with setTimeoutId := false, pendingJob := none }
      let s2 : TagCloudState :=
        if job.words.isEmpty then emptyDOM s1
        else
          let s3 := if job.refreshLayout then updateLayout s1 job else s1
          let s4 := updateDOM s3
          { s4 with
            cloudWidth := bbox.width
            cloudHeight := bbox.height
            allInViewBox := measureContainment bbox elemWidth elemHeight }
      if s2.pendingJob.isSome then processPendingJobStart s2
      else
        { s2 with
          completedJob := some job
          renderCompleteEmits := s2.renderCompleteEmits + 1 }

/-- The constructor.  It runs the `STATUS` field initializer, sets
`_size = [1, 1]`, calls `resize()` (which at that point only installs the
element dimensions: `_words` is still undefined so `_invalidate` returns
immediately, and the `wasInside` comparisons against the still-undefined cloud
fields are false), assigns all defaults, and finally executes
`this.STATUS.COMPLETE = 0; this.STATUS.INCOMPLETE = 0;`. -/
def initialState (elemWidth elemHeight : Int) : TagCloudState :=
  { size := (elemWidth, elemHeight)
    orientation := Orientation.single
    minFontSize := 10
    maxFontSize := 36
    textScale := ScaleKind.linear
    optionsAsString := none
    words := none
    setTimeoutId := false
    pendingJob := none
    layoutIsUpdating := false
    DOMisUpdating := false
    allInViewBox := false
    cloudWidth := 0
    cloudHeight := 0
    completedJob := none
    status := { statusFieldInit with COMPLETE := 0, INCOMPLETE := 0 } }

/-! ### Size mapper (`_makeTextSizeMapper` and the d3 scales it configures) -/

/-- The configuration a d3 scale object carries after `_makeTextSizeMapper`
set it up: a domain and a range (d3's defaults are both `[0, 1]`). -/
structure D3Scale where
  domain : ℚ × ℚ := (0, 1)
  range : ℚ × ℚ := (0, 1)
deriving DecidableEq, Repr

/-- Modelled from the spec: `d3.extent` is external d3 library code (§4.3 of
the spec: domain is the min and max of the word values).  It returns the least
and greatest element of the value list. -/
def d3Extent (xs : List ℚ) : ℚ × ℚ :=
  match xs with
  | [] => (0, 0)
  | x :: rest => (rest.foldl min x, rest.foldl max x)

/-- Modelled from the spec: evaluation of an external d3 scale
(`d3.scale.linear` / `log` / `sqrt`, §4.3: a monotonic scale from the domain
onto the range).  `transform` is the scale kind's monotone transform (identity,
logarithm, square root).  d3 guards the degenerate domain (its uninterpolator
divides by infinity when the transformed domain has zero width), so the
interpolation parameter is 0 in that case. -/
def d3ScaleApply (transform : ℚ → ℚ) (scale : D3Scale) (x : ℚ) : ℚ :=
  let d0 := transform scale.domain.1
  let d1 := transform scale.domain.2
  let t := if d1 - d0 = 0 then 0 else (transform x - d0) / (d1 - d0)
  scale.range.1 + t * (scale.range.2 - scale.range.1)

/-- `getValue` accessor: `tag.value`. -/
def getValue (tag : Tag) : Option ℚ :=
  tag.value

/-- `_makeTextSizeMapper()`: the raw scale when no words are set; otherwise the
range is `[maxFontSize, maxFontSize]` for a single word and
`[minFontSize, maxFontSize]` otherwise, and the domain is the extent of the
word values. -/
def makeTextSizeMapper (s : TagCloudState) : D3Scale :=
  match s.words with
  | none => {}
  | some ws =>
    { range :=
        if ws.length = 1 then (s.maxFontSize, s.maxFontSize)
        else (s.minFontSize, s.maxFontSize)
      domain := d3Extent (ws.filterMap getValue) }

/-! ### Rotation hash (`hashWithinRange` and `ORIENTATIONS`) -/

/-- JS `ch.charCodeAt(0)` where `ch` is one code point obtained by `for...of`
iteration: the code point itself on the BMP, else the leading (high) surrogate
of its UTF-16 encoding. -/
def charCodeAt0 (c : Char) : Nat :=
  if c.toNat < 65536 then c.toNat else 55296 + (c.toNat - 65536) / 1024

/-- Lower-case hexadecimal digit, as produced by `JSON.stringify` control-
character escapes. -/
def hexDigit (n : Nat) : Char :=
  if n < 10 then Char.ofNat (48 + n) else Char.ofNat (87 + n)

/-- One character of JSON string escaping: `"` and `\` get a backslash, the
named control escapes are used for backspace, tab, newline, form feed and
carriage return, the remaining control characters become `\u00xx`, and every
other character is kept as is. -/
def jsonEscapeChar (c : Char) : List Char :=
  if c = '"' then ['\\', '"']
  else if c = '\\' then ['\\', '\\']
  else if c.toNat = 8 then ['\\', 'b']
  else if c.toNat = 9 then ['\\', 't']
  else if c.toNat = 10 then ['\\', 'n']
  else if c.toNat = 12 then ['\\', 'f']
  else if c.toNat = 13 then ['\\', 'r']
  else if c.toNat < 32 then ['\\', 'u', '0', '0', hexDigit (c.toNat / 16), hexDigit (c.toNat % 16)]
  else [c]

/-- `JSON.stringify(str)` for a string value: the escaped content wrapped in
double quotes (the canonical serialization step of `hashWithinRange`). -/
def jsonStringifyString (str : String) : List Char :=
  '"' :: (str.data.flatMap jsonEscapeChar ++ ['"'])

/-- The character-code sequence `hashWithinRange` folds over: the codes of the
JSON-serialized text. -/
def hashCharCodes (str : String) : List Nat :=
  (jsonStringifyString str).map charCodeAt0

/-- `hashWithinRange(str, max)`: serialize, fold `hash = (hash * 31 + code) % max`
(JS `%` is the truncating remainder, `Int.tmod`), return `Math.abs(hash) % max`. -/
def hashWithinRange (str : String) (m : Int) : Int :=
  Int.tmod
    ((Int.natAbs
        ((hashCharCodes str).foldl (fun (h : Int) (c : Nat) => Int.tmod (h * 31 + (c : Int)) m) 0)
      : Nat) : Int)
    m

/-- The `ORIENTATIONS` map applied to a tag's text: rotation in degrees. -/
def orientationRotation : Orientation → String → Int
  | Orientation.single, _ => 0
  | Orientation.rightAngled, text => hashWithinRange text 2 * 90
  | Orientation.multiple, text => hashWithinRange text 12 * 15 - 90

/-- The hash as the spec's words describe it (claim C9): fold the character
codes of the canonical serialized form with `(hash * 31 + code) mod max`, then
`abs(hash) mod max` — stated over `Nat`, where `mod` is the mathematical
remainder and `abs` is the identity.  Kept separate from `hashWithinRange`
(the code translation) so the two can be compared. -/
def specHash (str : String) (m : Nat) : Nat :=
  ((hashCharCodes str).foldl (fun h c => (h * 31 + c) % m) 0) % m

/-! ### Concrete execution traces used by counterexamples and witnesses -/

/-- A concrete word. -/
def tagA : Tag :=
  { rawText := some "a", text := some "a", displayText := some "a", value := some 5 }

/-- A second concrete word. -/
def tagB : Tag :=
  { rawText := some "b", text := some "b", displayText := some "b", value := some 3 }

/-- A third concrete word. -/
def tagC : Tag :=
  { rawText := some "c", text := some "c", displayText := some "c", value := some 1 }

/-- A bounding box lying well inside a 400 by 300 viewport. -/
def bboxSmall : Rect := { x := 10, y := 10, width := 100, height := 50 }

/-- A fresh instance bound to a 400 by 300 element. -/
def sInit : TagCloudState := initialState 400 300

/-- After `setData([tagA])` on the fresh instance: the job is pending and the
deferred start is armed. -/
def sSubmitted : TagCloudState := setData sInit [tagA]

/-- After the deferred start fires and the first job runs to completion with a
contained bounding box. -/
def sDone : TagCloudState := fireTimer sSubmitted bboxSmall 400 300

/-- After `setData([tagB])` on the completed instance: the second job's
processing has started (timer armed) but its reconciliation has not run. -/
def sMid : TagCloudState := setData sDone [tagB]

/-- The job submitted by `setData([tagA])` on the fresh instance. -/
def jobA : JobType := { refreshLayout := true, size := (400, 300), words := [tagA] }

/-- The job submitted by `setData([tagB])` afterwards. -/
def jobB : JobType := { refreshLayout := true, size := (400, 300), words := [tagB] }

/-- An options payload with `minFontSize > maxFontSize`. -/
def optsInverted : OptionsRec :=
  { orientation := Orientation.multiple
    minFontSize := 20
    maxFontSize := 5
    scale := ScaleKind.squareRoot }

/-- A well-formed options payload. -/
def optsC7 : OptionsRec :=
  { orientation := Orientation.rightAngled
    minFontSize := 12
    maxFontSize := 24
    scale := ScaleKind.log }

/-- After `setData([])` on the fresh instance: an empty-word job pending. -/
def sEmptySubmitted : TagCloudState := setData sInit []

/-- The empty-word job that `setData([])` submits. -/
def jobEmpty : JobType := { refreshLayout := true, size := (400, 300), words := [] }

/-! ### Helper lemmas -/

/-- `processPendingJobStart` never touches the pending slot or the option
fields. -/
lemma processPendingJobStart_fields (s : TagCloudState) :
    (processPendingJobStart s).pendingJob = s.pendingJob ∧
    (processPendingJobStart s).minFontSize = s.minFontSize ∧
    (processPendingJobStart s).maxFontSize = s.maxFontSize ∧
    (processPendingJobStart s).optionsAsString = s.optionsAsString := by
  unfold processPendingJobStart
  split <;> exact ⟨rfl, rfl, rfl, rfl⟩

/-- `_invalidate` never touches the option fields. -/
lemma invalidate_fields (keepLayout : Bool) (s : TagCloudState) :
    (invalidate keepLayout s).minFontSize = s.minFontSize ∧
    (invalidate keepLayout s).maxFontSize = s.maxFontSize ∧
    (invalidate keepLayout s).optionsAsString = s.optionsAsString := by
  unfold invalidate
  split
  · exact ⟨rfl, rfl, rfl⟩
  · exact ⟨(processPendingJobStart_fields _).2.1.trans rfl,
      (processPendingJobStart_fields _).2.2.1.trans rfl,
      (processPendingJobStart_fields _).2.2.2.trans rfl⟩

/-- The pending slot after `_invalidate` on a state with words set: the
layout-preserving job under the reuse condition, a fresh full job otherwise. -/
lemma invalidate_pendingJob (keepLayout : Bool) (s : TagCloudState)
    (hwords : s.words.isNone = false) :
    (invalidate keepLayout s).pendingJob =
      if keepLayout && !(isJobRunning s) && s.completedJob.isSome
      then makeJobPreservingLayout s
      else some (makeNewJob s) := by
  unfold invalidate
  rw [if_neg (by simp [hwords])]
  exact (processPendingJobStart_fields _).1

/-- `setData` from an idle scheduler: the new-data job is stored in the pending
slot, the completed job is cleared and the deferred start is armed. -/
lemma setData_idle (s : TagCloudState) (data : List Tag)
    (h1 : s.setTimeoutId = false) (h2 : s.layoutIsUpdating = false)
    (h3 : s.DOMisUpdating = false) :
    setData s data =
      { s with
        words := some data
        pendingJob := some { refreshLayout := true, size := s.size, words := data }
        invalidateCount := s.invalidateCount + 1
        completedJob := none
        setTimeoutId := true } := by
  simp [setData, invalidate, processPendingJobStart, isJobRunning, makeNewJob, h1, h2, h3]

/-- `setData` while the deferred-start timer is armed: the pending slot is
replaced (the older pending data is discarded) and nothing else happens. -/
lemma setData_busy (s : TagCloudState) (data : List Tag) (h1 : s.setTimeoutId = true) :
    setData s data =
      { s with
        words := some data
        pendingJob := some { refreshLayout := true, size := s.size, words := data }
        invalidateCount := s.invalidateCount + 1 } := by
  simp [setData, invalidate, processPendingJobStart, isJobRunning, makeNewJob, h1]

/-- `fireTimer` on an armed timer with a pending full-relayout job over a
non-empty word list and a positive viewport: the job is picked, laid out,
rendered, measured, completed and announced. -/
lemma fireTimer_run (s : TagCloudState) (job : JobType) (bbox : Rect)
    (elemWidth elemHeight : Int) (ht : s.setTimeoutId = true)
    (hp : s.pendingJob = some job) (hw : job.words ≠ [])
    (hrefresh : job.refreshLayout = true) (hW : 0 < job.size.1) (hH : 0 < job.size.2) :
    fireTimer s bbox elemWidth elemHeight =
      { s with
        setTimeoutId := false
        pendingJob := none
        layoutIsUpdating := false
        layoutRuns := s.layoutRuns ++ [job]
        DOMisUpdating := false
        domUpdates := s.domUpdates + 1
        cloudWidth := bbox.width
        cloudHeight := bbox.height
        allInViewBox := measureContainment bbox elemWidth elemHeight
        completedJob := some job
        renderCompleteEmits := s.renderCompleteEmits + 1 } := by
  have hempty : job.words.isEmpty = false := by simp [List.isEmpty_iff, hw]
  have hsz : ¬(job.size.1 ≤ 0 ∨ job.size.2 ≤ 0) := by omega
  simp only [fireTimer, ht, Bool.not_true, Bool.false_eq_true, if_false, hp, hempty,
    hrefresh, if_true, updateLayout, if_neg hsz, updateDOM]
  simp

/-- `fireTimer` on an armed timer with a pending job whose word list is empty:
the `_emptyDOM` fast path, then completion. -/
lemma fireTimer_empty (s : TagCloudState) (job : JobType) (bbox : Rect)
    (elemWidth elemHeight : Int) (ht : s.setTimeoutId = true)
    (hp : s.pendingJob = some job) (hw : job.words = []) :
    fireTimer s bbox elemWidth elemHeight =
      { s with
        setTimeoutId := false
        pendingJob := none
        cloudWidth := 0
        cloudHeight := 0
        allInViewBox := true
        DOMisUpdating := false
        completedJob := some job
        renderCompleteEmits := s.renderCompleteEmits + 1 } := by
  have hempty : job.words.isEmpty = true := by simp [List.isEmpty_iff, hw]
  simp only [fireTimer, ht, Bool.not_true, Bool.false_eq_true, if_false, hp, hempty,
    if_true, emptyDOM]
  simp

/-- The pending slot after `resize` with changed dimensions and words set. -/
lemma resize_pendingJob (s : TagCloudState) (newWidth newHeight : Int)
    (hdims : ¬(newWidth = s.size.1 ∧ newHeight = s.size.2))
    (hwords : s.words.isNone = false) :
    (resize s newWidth newHeight).pendingJob =
      if cloudFitsB s s.size.1 s.size.2 && cloudFitsB s newWidth newHeight && s.allInViewBox
          && !(isJobRunning { s with size := (newWidth, newHeight) })
          && ({ s with size := (newWidth, newHeight) } : TagCloudState).completedJob.isSome
      then makeJobPreservingLayout { s with size := (newWidth, newHeight) }
      else some (makeNewJob { s with size := (newWidth, newHeight) }) := by
  unfold resize
  rw [if_neg hdims]
  exact invalidate_pendingJob _ _ hwords

/-- The first job's bounding box lies inside the 400 by 300 viewport. -/
lemma measureContainment_bboxSmall : measureContainment bboxSmall 400 300 = true := by
  simp only [measureContainment, bboxSmall, decide_eq_true_eq]
  norm_num

/-- Literal form of the state after the first job completed. -/
lemma sDone_eq :
    sDone =
      { sInit with
        words := some [tagA]
        setTimeoutId := false
        pendingJob := none
        layoutIsUpdating := false
        DOMisUpdating := false
        allInViewBox := true
        cloudWidth := 100
        cloudHeight := 50
        completedJob := some jobA
        layoutRuns := [jobA]
        renderCompleteEmits := 1
        invalidateCount := 1
        domUpdates := 1 } := by
  show fireTimer (setData sInit [tagA]) bboxSmall 400 300 = _
  rw [setData_idle sInit [tagA] rfl rfl rfl,
    fireTimer_run _ jobA bboxSmall 400 300 rfl rfl (by decide) rfl (by decide) (by decide),
    measureContainment_bboxSmall]
  rfl

/-- Literal form of the mid-processing state: second job pending and picked-up
pending, timer armed, completed job cleared. -/
lemma sMid_eq :
    sMid =
      { sInit with
        words := some [tagB]
        setTimeoutId := true
        pendingJob := some jobB
        layoutIsUpdating := false
        DOMisUpdating := false
        allInViewBox := true
        cloudWidth := 100
        cloudHeight := 50
        completedJob := none
        layoutRuns := [jobA]
        renderCompleteEmits := 1
        invalidateCount := 2
        domUpdates := 1 } := by
  show setData sDone [tagB] = _
  rw [sDone_eq, setData_idle _ [tagB] rfl rfl rfl]
  rfl

/-! ### Claim theorems -/

/-- C1: `getStatus()` does return the `COMPLETE` value exactly when the last
containment measurement succeeded and `INCOMPLETE` otherwise, but the claim
that `COMPLETE` and `INCOMPLETE` are two distinct fixed values fails on the
code: the class-field initializer creates `STATUS = (COMPLETE 0, INCOMPLETE 1)`
and the constructor then overwrites `STATUS.INCOMPLETE` to 0, so on every
constructed instance both status values are 0 and a caller cannot distinguish
the two statuses — `getStatus` returns the same number whether or not the
cloud is contained. -/
theorem C1_status_collision :
    statusFieldInit = { COMPLETE := 0, INCOMPLETE := 1 } ∧
    (initialState 400 300).status.COMPLETE = 0 ∧
    (initialState 400 300).status.INCOMPLETE = 0 ∧
    getStatus { initialState 400 300 with allInViewBox := true } =
      getStatus { initialState 400 300 with allInViewBox := false } :=
  ⟨rfl, rfl, rfl, rfl⟩

/-- C2 counterexample: after the first job completed (`sDone` holds it as the
completed job), submitting new data starts processing the second job (`sMid`
has the deferred-start timer armed and no reconciliation done yet), and at
that intermediate point the `CompletedJob` slot is `null` — not the previously
completed job, contradicting the claim. -/
theorem C2_counterexample :
    sDone.completedJob = some { refreshLayout := true, size := (400, 300), words := [tagA] } ∧
    sMid.setTimeoutId = true ∧
    sMid.DOMisUpdating = false ∧
    sMid.completedJob = none := by
  refine ⟨?_, rfl, rfl, ?_⟩ <;> decide

/-- C2 amended: when processing of a submitted job starts, the `CompletedJob`
slot is cleared to `null` (so between start and completion it holds `null`,
never a partial value), and it is assigned again only at the end of a fully
successful pipeline run, where it receives the whole picked job. -/
theorem C2_completedJob_lifecycle (s : TagCloudState) (data : List Tag) (bbox : Rect)
    (elemWidth elemHeight : Int) (hidle : isJobRunning s = false) :
    (setData s data).completedJob = none ∧
    ∃ job : JobType, (setData s data).pendingJob = some job ∧
      (fireTimer (setData s data) bbox elemWidth elemHeight).completedJob = some job := by
  simp only [isJobRunning, Bool.or_eq_false_iff] at hidle
  obtain ⟨⟨h1, h2⟩, h3⟩ := hidle
  rw [setData_idle s data h1 h2 h3]
  refine ⟨rfl, { refreshLayout := true, size := s.size, words := data }, rfl, ?_⟩
  rcases eq_or_ne data [] with hdata | hdata
  · rw [fireTimer_empty _ _ bbox elemWidth elemHeight rfl rfl hdata]
  · rcases le_or_lt s.size.1 0 with hW | hW
    · simp only [fireTimer, Bool.not_true, Bool.false_eq_true, if_false,
        if_neg (by simp [List.isEmpty_iff, hdata] : ¬(data.isEmpty = true)), if_true,
        updateLayout, if_pos (Or.inl hW : s.size.1 ≤ 0 ∨ s.size.2 ≤ 0), updateDOM]
      simp
    · rcases le_or_lt s.size.2 0 with hH | hH
      · simp only [fireTimer, Bool.not_true, Bool.false_eq_true, if_false,
          if_neg (by simp [List.isEmpty_iff, hdata] : ¬(data.isEmpty = true)), if_true,
          updateLayout, if_pos (Or.inr hH : s.size.1 ≤ 0 ∨ s.size.2 ≤ 0), updateDOM]
        simp
      · rw [fireTimer_run _ _ bbox elemWidth elemHeight rfl rfl hdata rfl hW hH]

/-- C2 amended, witness: the lifecycle holds on the concrete trace. -/
theorem C2_lifecycle_witness :
    isJobRunning sDone = false ∧
    (setData sDone [tagB]).completedJob = none ∧
    ∃ job : JobType, (setData sDone [tagB]).pendingJob = some job ∧
      (fireTimer (setData sDone [tagB]) bboxSmall 400 300).completedJob = some job :=
  ⟨by decide, C2_completedJob_lifecycle sDone [tagB] bboxSmall 400 300 (by decide)⟩

/-- C5: a job whose viewport width or height is not strictly positive makes
`_updateLayout` return immediately: the state is unchanged and no layout
generator run is recorded, so the placement algorithm is never started. -/
theorem C5_nonpositive_viewport (s : TagCloudState) (job : JobType)
    (h : job.size.1 ≤ 0 ∨ job.size.2 ≤ 0) :
    updateLayout s job = s ∧ (updateLayout s job).layoutRuns = s.layoutRuns := by
  unfold updateLayout
  rw [if_pos h]
  exact ⟨rfl, rfl⟩

/-- C5 witness: a zero-width job leaves the fresh instance untouched. -/
theorem C5_witness :
    ((0 : Int) ≤ 0 ∨ (100 : Int) ≤ 0) ∧
    updateLayout sInit { refreshLayout := true, size := (0, 100), words := [tagA] } = sInit :=
  ⟨Or.inl le_rfl,
    (C5_nonpositive_viewport sInit { refreshLayout := true, size := (0, 100), words := [tagA] }
      (Or.inl le_rfl)).1⟩

/-- C3: from an idle scheduler, three synchronous `setData` calls with word
sets `A`, `B`, `C` (no timer fires in between) leave exactly one pending job —
first `B`'s job replaces `A`'s, then `C`'s replaces `B`'s — and when the armed
deferred start fires, exactly one layout pass runs, on the job carrying `C`,
exactly one `renderComplete` is emitted, and nothing remains pending:
the jobs for `A` and `B` are never queued or executed. -/
theorem C3_coalescing (s : TagCloudState) (A B C : List Tag) (bbox : Rect)
    (elemWidth elemHeight : Int) (hidle : isJobRunning s = false)
    (hC : C ≠ []) (hW : 0 < s.size.1) (hH : 0 < s.size.2) :
    (setData (setData s A) B).pendingJob =
        some { refreshLayout := true, size := s.size, words := B } ∧
    (setData (setData (setData s A) B) C).pendingJob =
        some { refreshLayout := true, size := s.size, words := C } ∧
    (fireTimer (setData (setData (setData s A) B) C) bbox elemWidth elemHeight).layoutRuns =
        s.layoutRuns ++ [{ refreshLayout := true, size := s.size, words := C }] ∧
    (fireTimer (setData (setData (setData s A) B) C) bbox elemWidth elemHeight).renderCompleteEmits =
        s.renderCompleteEmits + 1 ∧
    (fireTimer (setData (setData (setData s A) B) C) bbox elemWidth elemHeight).pendingJob =
        none := by
  simp only [isJobRunning, Bool.or_eq_false_iff] at hidle
  obtain ⟨⟨h1, h2⟩, h3⟩ := hidle
  rw [setData_idle s A h1 h2 h3, setData_busy _ B rfl, setData_busy _ C rfl,
    fireTimer_run _ { refreshLayout := true, size := s.size, words := C }
      bbox elemWidth elemHeight rfl rfl hC rfl hW hH]
  exact ⟨rfl, rfl, rfl, rfl, rfl⟩

/-- C3 witness: the concrete three-submission trace on a fresh instance. -/
theorem C3_coalescing_witness :
    isJobRunning sInit = false ∧ [tagC] ≠ ([] : List Tag) ∧
    (0 : Int) < sInit.size.1 ∧ (0 : Int) < sInit.size.2 ∧
    ((fireTimer (setData (setData (setData sInit [tagA]) [tagB]) [tagC])
        bboxSmall 400 300).layoutRuns =
      sInit.layoutRuns ++ [{ refreshLayout := true, size := sInit.size, words := [tagC] }] ∧
     (fireTimer (setData (setData (setData sInit [tagA]) [tagB]) [tagC])
        bboxSmall 400 300).renderCompleteEmits = sInit.renderCompleteEmits + 1) :=
  ⟨by decide, by decide, by decide, by decide,
    (C3_coalescing sInit [tagA] [tagB] [tagC] bboxSmall 400 300 (by decide) (by decide)
      (by decide) (by decide)).2.2.1,
    (C3_coalescing sInit [tagA] [tagB] [tagC] bboxSmall 400 300 (by decide) (by decide)
      (by decide) (by decide)).2.2.2.1⟩

/-- C4 counterexample: on `sMid` the second job's processing is under way
(timer armed), the previously measured cloud (100 by 50) fits the old 400 by
300 viewport and the new 500 by 400 one, and the containment status is
`COMPLETE` (`allInViewBox = true`) — yet `resize` submits a job with
`refreshLayout = true`, because `_invalidate` refuses to reuse the layout
while `_isJobRunning()` holds (and `_completedJob` was already cleared). -/
theorem C4_counterexample :
    sMid.allInViewBox = true ∧
    cloudFitsB sMid sMid.size.1 sMid.size.2 = true ∧
    cloudFitsB sMid 500 400 = true ∧
    (resize sMid 500 400).pendingJob =
      some { refreshLayout := true, size := (500, 400), words := [tagB] } := by
  refine ⟨by rw [sMid_eq], ?_, ?_, ?_⟩
  · rw [sMid_eq]
    simp only [cloudFitsB, decide_eq_true_eq, sInit, initialState]
    norm_num
  · rw [sMid_eq]
    simp only [cloudFitsB, decide_eq_true_eq]
    norm_num
  · rw [sMid_eq]
    rw [resize_pendingJob _ 500 400 (by decide) (by rfl)]
    simp [isJobRunning, makeNewJob]

/-- C4 amended: when `resize` observes changed dimensions and words are set, a
job is always submitted; it is the layout-preserving `refreshLayout = false`
job (same words with `x`, `y`, `rotate`, `size` carried over — only recentring
happens at render time) exactly when the cloud fit the old and the new
viewport, the status was `COMPLETE`, **no job is currently running, and a
completed job exists**; in every other such case it is a full
`refreshLayout = true` job.  (When the observed dimensions equal the stored
ones, `resize` returns without submitting anything.) -/
theorem C4_resize_refresh (s : TagCloudState) (newWidth newHeight : Int) (ws : List Tag)
    (hdims : ¬(newWidth = s.size.1 ∧ newHeight = s.size.2)) (hwords : s.words = some ws) :
    ((cloudFitsB s s.size.1 s.size.2 && cloudFitsB s newWidth newHeight && s.allInViewBox) = true →
      isJobRunning s = false → s.completedJob.isSome = true →
      (resize s newWidth newHeight).pendingJob =
        s.completedJob.map fun cj =>
          { refreshLayout := false, size := (newWidth, newHeight),
            words := cj.words.map preserveTag }) ∧
    ((cloudFitsB s s.size.1 s.size.2 && cloudFitsB s newWidth newHeight && s.allInViewBox) = false ∨
        isJobRunning s = true ∨ s.completedJob = none →
      (resize s newWidth newHeight).pendingJob =
        some { refreshLayout := true, size := (newWidth, newHeight), words := ws }) ∧
    (∀ tag : Tag, (preserveTag tag).x = tag.x ∧ (preserveTag tag).y = tag.y ∧
      (preserveTag tag).rotate = tag.rotate ∧ (preserveTag tag).size = tag.size) := by
  have hwn : s.words.isNone = false := by rw [hwords]; rfl
  refine ⟨?_, ?_, fun tag => ⟨rfl, rfl, rfl, rfl⟩⟩
  · intro hfit hrun hcj
    rw [resize_pendingJob s newWidth newHeight hdims hwn]
    have hrun' : isJobRunning { s with size := (newWidth, newHeight) } = false := hrun
    have hcj' : ({ s with size := (newWidth, newHeight) } : TagCloudState).completedJob.isSome
        = true := hcj
    rw [hfit, hrun', hcj']
    simp [makeJobPreservingLayout]
  · intro hother
    rw [resize_pendingJob s newWidth newHeight hdims hwn]
    have hfalse :
        (cloudFitsB s s.size.1 s.size.2 && cloudFitsB s newWidth newHeight && s.allInViewBox
          && !(isJobRunning { s with size := (newWidth, newHeight) })
          && ({ s with size := (newWidth, newHeight) } : TagCloudState).completedJob.isSome)
          = false := by
      rcases hother with h | h | h
      · rw [h]; simp
      · have h' : isJobRunning { s with size := (newWidth, newHeight) } = true := h
        rw [h']; simp
      · have h' : ({ s with size := (newWidth, newHeight) } : TagCloudState).completedJob
            = none := h
        rw [h']; simp
    rw [hfalse]
    simp [makeNewJob, hwords]

/-- C4 amended, witness: on the mid-processing state the fallback branch of the
amended claim produces the full-relayout job. -/
theorem C4_refresh_witness :
    ¬((500 : Int) = sMid.size.1 ∧ (400 : Int) = sMid.size.2) ∧
    sMid.words = some [tagB] ∧
    isJobRunning sMid = true ∧
    (resize sMid 500 400).pendingJob =
      some { refreshLayout := true, size := (500, 400), words := [tagB] } := by
  have h1 : ¬((500 : Int) = sMid.size.1 ∧ (400 : Int) = sMid.size.2) := by
    rw [sMid_eq]; decide
  have h2 : sMid.words = some [tagB] := by rw [sMid_eq]
  have h3 : isJobRunning sMid = true := by rw [sMid_eq]; rfl
  exact ⟨h1, h2, h3, (C4_resize_refresh sMid 500 400 [tagB] h1 h2).2.1 (Or.inr (Or.inl h3))⟩

/-- C6: whenever the option fields were in order before the call (as they are
after construction and after every earlier `setOptions`), they are again in
order after any `setOptions` call: the incoming pair is normalized with
`Math.min` / `Math.max` at assignment time. -/
theorem C6_fontSize_normalized (s : TagCloudState) (options : OptionsRec)
    (h : s.minFontSize ≤ s.maxFontSize) :
    (setOptions s options).minFontSize ≤ (setOptions s options).maxFontSize := by
  unfold setOptions
  split
  · exact h
  · rw [(invalidate_fields _ _).1, (invalidate_fields _ _).2.1]
    exact min_le_max

/-- C6 witness: an inverted payload (20, 5) is stored normalized. -/
theorem C6_witness :
    sInit.minFontSize ≤ sInit.maxFontSize ∧
    (setOptions sInit optsInverted).minFontSize ≤
      (setOptions sInit optsInverted).maxFontSize :=
  ⟨by norm_num [sInit, initialState],
    C6_fontSize_normalized sInit optsInverted (by norm_num [sInit, initialState])⟩

/-- `setOptions` with the stored payload is the identity. -/
lemma setOptions_noop (s : TagCloudState) (options : OptionsRec)
    (h : s.optionsAsString = some options) : setOptions s options = s := by
  unfold setOptions
  rw [if_pos h]

/-- After any `setOptions` call the serialized payload is stored. -/
lemma setOptions_optionsAsString (s : TagCloudState) (options : OptionsRec) :
    (setOptions s options).optionsAsString = some options := by
  unfold setOptions
  split
  · assumption
  · rw [(invalidate_fields _ _).2.2]

/-- C7: a `setOptions` call whose payload is structurally equal to the stored
one is a no-op (the state, including every ghost counter, is unchanged, so no
layout cycle is triggered), and therefore two consecutive calls with the same
payload perform at most one layout cycle: the second call never changes
anything. -/
theorem C7_setOptions_structural_noop (s : TagCloudState) (options : OptionsRec) :
    (s.optionsAsString = some options → setOptions s options = s) ∧
    setOptions (setOptions s options) options = setOptions s options :=
  ⟨fun h => setOptions_noop s options h,
    setOptions_noop _ options (setOptions_optionsAsString s options)⟩

/-- C7 witness: the no-op on a state already holding the payload, and the
second of two identical calls on a fresh instance. -/
theorem C7_witness :
    setOptions { sInit with optionsAsString := some optsC7 } optsC7
        = { sInit with optionsAsString := some optsC7 } ∧
    setOptions (setOptions sInit optsC7) optsC7 = setOptions sInit optsC7 :=
  ⟨(C7_setOptions_structural_noop _ optsC7).1 rfl,
    (C7_setOptions_structural_noop sInit optsC7).2⟩

/-- C8: with exactly one word the mapper's range collapses to
`[maxFontSize, maxFontSize]`, so whatever monotone transform the configured d3
scale uses and whatever the word's weight is, the mapped font size is
`maxFontSize`. -/
theorem C8_single_word_max_font (s : TagCloudState) (tag : Tag) (transform : ℚ → ℚ)
    (x : ℚ) (h : s.words = some [tag]) :
    d3ScaleApply transform (makeTextSizeMapper s) x = s.maxFontSize := by
  unfold makeTextSizeMapper
  rw [h]
  simp [d3ScaleApply]

/-- C8 witness: a single word of weight 5 queried at weight 7 under the
identity transform maps to the default `maxFontSize` of 36. -/
theorem C8_witness :
    ({ sInit with words := some [tagA] } : TagCloudState).words = some [tagA] ∧
    d3ScaleApply id (makeTextSizeMapper { sInit with words := some [tagA] }) 7 = 36 :=
  ⟨rfl, (C8_single_word_max_font _ tagA id 7 rfl).trans (by norm_num [sInit, initialState])⟩

/-- `Int.tmod` on two natural numbers is the natural remainder. -/
lemma tmod_natCast (a b : Nat) : Int.tmod (a : Int) (b : Int) = ((a % b : Nat) : Int) := rfl

/-- The JS hash fold (over `Int` with the truncating remainder) computes the
natural-number fold: every intermediate value is non-negative. -/
lemma foldl_tmod_natCast (codes : List Nat) (m : Nat) :
    ∀ h : Nat,
      codes.foldl (fun (acc : Int) (c : Nat) => Int.tmod (acc * 31 + (c : Int)) (m : Int))
          (h : Int)
        = ((codes.foldl (fun acc c => (acc * 31 + c) % m) h : Nat) : Int) := by
  induction codes with
  | nil => intro h; rfl
  | cons c cs ih =>
    intro h
    simp only [List.foldl_cons]
    rw [show ((h : Int) * 31 + (c : Int)) = (((h * 31 + c : Nat)) : Int) by push_cast; ring,
      tmod_natCast]
    exact ih _

/-- The code's `hashWithinRange` agrees with the spec-worded hash. -/
lemma hashWithinRange_eq_specHash (str : String) (m : Nat) :
    hashWithinRange str (m : Int) = (specHash str m : Int) := by
  unfold hashWithinRange specHash
  rw [show (0 : Int) = ((0 : Nat) : Int) from rfl, foldl_tmod_natCast, Int.natAbs_ofNat,
    tmod_natCast]

/-- C9: rotation is the stated pure function of (text, mode): 0 under `single`,
`hash(text, 2) * 90` under `right angled`, `hash(text, 12) * 15 - 90` under
`multiple`, where the hash serializes the text (JSON canonical form), folds
character codes with `(hash * 31 + code) mod max` and returns
`abs(hash) mod max`; being a pure function of its arguments, two calls with the
same (text, mode) necessarily yield the same output. -/
theorem C9_rotation_deterministic (text : String) :
    orientationRotation Orientation.single text = 0 ∧
    orientationRotation Orientation.rightAngled text = (specHash text 2 : Int) * 90 ∧
    orientationRotation Orientation.multiple text = (specHash text 12 : Int) * 15 - 90 := by
  refine ⟨rfl, ?_, ?_⟩
  · show hashWithinRange text 2 * 90 = (specHash text 2 : Int) * 90
    rw [show (2 : Int) = ((2 : Nat) : Int) from rfl, hashWithinRange_eq_specHash]
  · show hashWithinRange text 12 * 15 - 90 = (specHash text 12 : Int) * 15 - 90
    rw [show (12 : Int) = ((12 : Nat) : Int) from rfl, hashWithinRange_eq_specHash]

/-- C10: processing a job with an empty word list takes the `_emptyDOM` fast
path: the containment flag becomes true (so `getStatus` takes the `COMPLETE`
branch even though nothing is rendered) and the stored cloud extents are reset
to 0, so the `resize` cloud-fits test succeeds against any non-negative
dimensions. -/
theorem C10_empty_job (s : TagCloudState) (job : JobType) (bbox : Rect)
    (elemWidth elemHeight : Int) (ht : s.setTimeoutId = true)
    (hp : s.pendingJob = some job) (hempty : job.words = []) :
    (fireTimer s bbox elemWidth elemHeight).allInViewBox = true ∧
    (fireTimer s bbox elemWidth elemHeight).cloudWidth = 0 ∧
    (fireTimer s bbox elemWidth elemHeight).cloudHeight = 0 ∧
    getStatus (fireTimer s bbox elemWidth elemHeight) =
      (fireTimer s bbox elemWidth elemHeight).status.COMPLETE ∧
    (∀ newWidth newHeight : Int, 0 ≤ newWidth → 0 ≤ newHeight →
      cloudFitsB (fireTimer s bbox elemWidth elemHeight) newWidth newHeight = true) := by
  rw [fireTimer_empty s job bbox elemWidth elemHeight ht hp hempty]
  refine ⟨rfl, rfl, rfl, rfl, ?_⟩
  intro newWidth newHeight hW hH
  simp only [cloudFitsB, decide_eq_true_eq]
  constructor
  · show (0 : ℚ) ≤ (newWidth : ℚ)
    exact_mod_cast hW
  · show (0 : ℚ) ≤ (newHeight : ℚ)
    exact_mod_cast hH

/-- C10 witness: the empty-word job on the fresh instance. -/
theorem C10_witness :
    sEmptySubmitted.setTimeoutId = true ∧
    sEmptySubmitted.pendingJob = some jobEmpty ∧
    jobEmpty.words = [] ∧
    (fireTimer sEmptySubmitted bboxSmall 400 300).allInViewBox = true ∧
    (fireTimer sEmptySubmitted bboxSmall 400 300).cloudWidth = 0 ∧
    cloudFitsB (fireTimer sEmptySubmitted bboxSmall 400 300) 800 600 = true := by
  have ht : sEmptySubmitted.setTimeoutId = true := by
    show (setData sInit []).setTimeoutId = true
    rw [setData_idle sInit [] rfl rfl rfl]
  have hp : sEmptySubmitted.pendingJob = some jobEmpty := by
    show (setData sInit []).pendingJob = some jobEmpty
    rw [setData_idle sInit [] rfl rfl rfl]
    rfl
  have main := C10_empty_job sEmptySubmitted jobEmpty bboxSmall 400 300 ht hp rfl
  exact ⟨ht, hp, rfl, main.1, main.2.1, main.2.2.2.2 800 600 (by norm_num) (by norm_num)⟩

end TagCloudModel
